import Mathlib

/-!
Shallow embedding of the SOL-Casino on-chain program
(`programs/sol-casino/src/lib.rs`): a dice wagering protocol with a
vault, per-bet exposure limits and house-edge-adjusted payouts.

Machine integers are modelled as `Nat` with explicit `% 2^w` where the
source narrows (`as u64`, `as u8`); the Rust `checked_*` operations
become `Option`-valued functions, and an `unwrap` on `none` (a panic,
which aborts the transaction) becomes the `ProgError.abort` outcome.
Each Anchor instruction becomes a pure function from the accounts it
reads and writes to `Except ProgError` of the updated accounts; an
`Except.error` result means the transaction fails and every account is
left unchanged (the runtime reverts all writes of a failed
instruction).  Public keys are abstracted as `Nat`.  The two System
Program lamport transfers (player→vault in `place_bet`, vault→player in
`consume_randomness`) are modelled by `systemTransfer`, which fails
(error `cpi`) when the source balance is insufficient or the
destination balance would overflow u64.
-/

namespace SolCasino

def U64_MOD : Nat := 2 ^ 64

def U128_MOD : Nat := 2 ^ 128

/-- Rust `u64::checked_add` (both arguments assumed in range). -/
def checkedAdd64 (a b : Nat) : Option Nat :=
  if a + b < U64_MOD then some (a + b) else none

/-- Rust `u128::checked_mul` (both arguments assumed in range). -/
def checkedMul128 (a b : Nat) : Option Nat :=
  if a * b < U128_MOD then some (a * b) else none

/-- Rust `checked_div`: fails only on division by zero. -/
def checkedDiv (a b : Nat) : Option Nat :=
  if b = 0 then none else some (a / b)

/-- Rust `checked_sub`: fails on underflow. -/
def checkedSub (a b : Nat) : Option Nat :=
  if b ≤ a then some (a - b) else none

/-- `enum BetType { Under, Exactly, Over }` -/
inductive BetType where
  | Under
  | Exactly
  | Over
deriving DecidableEq, Repr

/-- `enum BetStatus { Pending, RandomnessRequested, Settled }` -/
inductive BetStatus where
  | Pending
  | RandomnessRequested
  | Settled
deriving DecidableEq, Repr

/-- `enum CasinoError` (the `#[error_code]` enum of the program). -/
inductive CasinoError where
  | InvalidHouseEdge
  | InvalidBetAmount
  | InvalidExposure
  | GamePaused
  | BetTooSmall
  | BetTooLarge
  | BetExceedsExposure
  | InsufficientVaultBalance
  | Unauthorized
  | BetAlreadySettled
  | BetNotReady
deriving DecidableEq, Repr

/-- Outcome classification of a failed instruction: a program-raised
`CasinoError`, an aborted transaction from a Rust `unwrap()` on a
failed checked arithmetic operation (`abort`), or a failed System
Program transfer CPI (`cpi`). -/
inductive ProgError where
  | casino : CasinoError → ProgError
  | abort : ProgError
  | cpi : ProgError
deriving DecidableEq, Repr

/-- `struct GameConfig` account. -/
structure GameConfig where
  admin : Nat
  house_edge_bps : Nat
  min_bet : Nat
  max_bet : Nat
  max_exposure_bps : Nat
  paused : Bool
  vault_bump : Nat
  vrf_account : Option Nat
deriving DecidableEq, Repr

/-- `struct Vault` account. -/
structure Vault where
  balance : Nat
  total_bets : Nat
  total_volume : Nat
deriving DecidableEq, Repr

/-- `struct Bet` account. -/
structure Bet where
  player : Nat
  bet_type : BetType
  amount : Nat
  bet_index : Nat
  status : BetStatus
  vrf_request_key : Option Nat
  dice_result : Option Nat
  won : Option Bool
  payout : Option Nat
  timestamp : Int
deriving DecidableEq, Repr

/-- The System Program `transfer` instruction: moves `amount` lamports
from a balance `fromBal` to a balance `toBal`; fails when the source
has too few lamports or the destination would overflow u64. -/
def systemTransfer (fromBal toBal amount : Nat) : Except ProgError (Nat × Nat) :=
  if amount ≤ fromBal ∧ toBal + amount < U64_MOD then
    .ok (fromBal - amount, toBal + amount)
  else .error .cpi

/-- `init_game`: validates the four parameters and initializes the
`GameConfig` and `Vault` accounts (lib.rs lines 10-50). -/
def init_game (admin vault_bump : Nat)
    (house_edge_bps min_bet max_bet max_exposure_bps : Nat) :
    Except ProgError (GameConfig × Vault) :=
  if ¬ house_edge_bps ≤ 1000 then .error (.casino .InvalidHouseEdge)
  else if ¬ min_bet > 0 then .error (.casino .InvalidBetAmount)
  else if ¬ max_bet ≥ min_bet then .error (.casino .InvalidBetAmount)
  else if ¬ (max_exposure_bps > 0 ∧ max_exposure_bps ≤ 10000) then
    .error (.casino .InvalidExposure)
  else
    .ok ({ admin := admin
           house_edge_bps := house_edge_bps
           min_bet := min_bet
           max_bet := max_bet
           max_exposure_bps := max_exposure_bps
           paused := false
           vault_bump := vault_bump
           vrf_account := none },
         { balance := 0, total_bets := 0, total_volume := 0 })

/-- The max-exposure limit check of `place_bet` (lib.rs lines 71-80):
skipped entirely when the vault lamport balance is zero; otherwise
`max_exposure = (vault_lamports as u128 * max_exposure_bps as u128
/ 10000) as u64` and amounts above it are rejected. -/
def exposureCheck (vault_lamports max_exposure_bps amount : Nat) :
    Except ProgError Unit :=
  if 0 < vault_lamports then
    match checkedMul128 vault_lamports max_exposure_bps with
    | none => .error .abort
    | some prod =>
      match checkedDiv prod 10000 with
      | none => .error .abort
      | some q =>
        if q % U64_MOD < amount then .error (.casino .BetExceedsExposure)
        else .ok ()
  else .ok ()

/-- Result of a successful `place_bet`: the updated vault account, the
freshly initialized bet account, and the two lamport balances after
the player→vault transfer. -/
structure PlaceBetResult where
  vault : Vault
  bet : Bet
  vault_lamports : Nat
  player_lamports : Nat
deriving DecidableEq, Repr

/-- `place_bet` (lib.rs lines 53-121): pause / min / max / exposure
checks, player→vault transfer, bet account initialization, vault
statistics update (all three counters via `checked_add().unwrap()`). -/
def place_bet (game_config : GameConfig) (vault : Vault)
    (vault_lamports player_lamports player : Nat)
    (bet_type : BetType) (amount : Nat) (now : Int) :
    Except ProgError PlaceBetResult :=
  if game_config.paused then .error (.casino .GamePaused)
  else if amount < game_config.min_bet then .error (.casino .BetTooSmall)
  else if game_config.max_bet < amount then .error (.casino .BetTooLarge)
  else
    match exposureCheck vault_lamports game_config.max_exposure_bps amount with
    | .error e => .error e
    | .ok _ =>
      match systemTransfer player_lamports vault_lamports amount with
      | .error e => .error e
      | .ok (player_lamports2, vault_lamports2) =>
        let bet : Bet :=
          { player := player
            bet_type := bet_type
            amount := amount
            bet_index := vault.total_bets
            status := .Pending
            vrf_request_key := none
            dice_result := none
            won := none
            payout := none
            timestamp := now }
        match checkedAdd64 vault.balance amount with
        | none => .error .abort
        | some b =>
          match checkedAdd64 vault.total_bets 1 with
          | none => .error .abort
          | some tb =>
            match checkedAdd64 vault.total_volume amount with
            | none => .error .abort
            | some tv =>
              .ok { vault := { balance := b, total_bets := tb, total_volume := tv }
                    bet := bet
                    vault_lamports := vault_lamports2
                    player_lamports := player_lamports2 }

/-- `request_randomness` (lib.rs lines 124-141): requires a Pending
bet and an unpaused game, then records the VRF account key and moves
the bet to RandomnessRequested. -/
def request_randomness (game_config : GameConfig) (bet : Bet)
    (vrf_account : Nat) : Except ProgError Bet :=
  if ¬ bet.status = BetStatus.Pending then .error (.casino .BetNotReady)
  else if game_config.paused then .error (.casino .GamePaused)
  else .ok { bet with status := .RandomnessRequested
                      vrf_request_key := some vrf_account }

/-- Rust expression `((random_value % 11) + 2) as u8` of lib.rs line 157. -/
def diceRoll (random_value : Nat) : Nat :=
  ((random_value % 11) + 2) % 256

/-- The win condition of lib.rs lines 160-164. -/
def winRule (bt : BetType) (roll : Nat) : Bool :=
  match bt with
  | .Under => decide (roll < 7)
  | .Exactly => decide (roll = 7)
  | .Over => decide (7 < roll)

/-- The payout multiplier of lib.rs lines 168-171 (integer hundredths). -/
def multiplierOf (bt : BetType) : Nat :=
  match bt with
  | .Under | .Over => 235
  | .Exactly => 588

/-- The winning-payout computation of lib.rs lines 174-186:
`base_payout = amount as u128 * multiplier / 100`,
`house_edge_deduction = base_payout * house_edge_bps / 10000`,
result `(base_payout - house_edge_deduction) as u64` — every step a
`checked_*().unwrap()` in u128, and the final value narrowed to u64. -/
def winPayout (amount multiplier house_edge_bps : Nat) : Except ProgError Nat :=
  match checkedMul128 amount multiplier with
  | none => .error .abort
  | some m1 =>
    match checkedDiv m1 100 with
    | none => .error .abort
    | some base_payout =>
      match checkedMul128 base_payout house_edge_bps with
      | none => .error .abort
      | some m2 =>
        match checkedDiv m2 10000 with
        | none => .error .abort
        | some house_edge_deduction =>
          match checkedSub base_payout house_edge_deduction with
          | none => .error .abort
          | some d => .ok (d % U64_MOD)

/-- Result of a successful `consume_randomness`: the settled bet, the
updated vault account, and the two lamport balances after the
vault→player payout transfer (if any). -/
structure ConsumeResult where
  bet : Bet
  vault : Vault
  vault_lamports : Nat
  player_lamports : Nat
deriving DecidableEq, Repr

/-- `consume_randomness` (lib.rs lines 144-245): requires a
RandomnessRequested bet with `won` unset, derives the dice roll,
resolves the outcome, computes the payout, checks the vault lamport
balance, records the results on the bet (status Settled), and on a win
transfers the payout vault→player and debits `vault.balance`. -/
def consume_randomness (game_config : GameConfig) (vault : Vault) (bet : Bet)
    (vault_lamports player_lamports : Nat) (random_value : Nat) :
    Except ProgError ConsumeResult :=
  if ¬ bet.status = BetStatus.RandomnessRequested then .error (.casino .BetNotReady)
  else if bet.won.isSome then .error (.casino .BetAlreadySettled)
  else
    let dice_roll := diceRoll random_value
    let won := winRule bet.bet_type dice_roll
    match (if won then winPayout bet.amount (multiplierOf bet.bet_type) game_config.house_edge_bps
           else .ok 0) with
    | .error e => .error e
    | .ok payout =>
      if won = true ∧ 0 < payout ∧ vault_lamports < payout then
        .error (.casino .InsufficientVaultBalance)
      else
        let bet2 : Bet :=
          { bet with dice_result := some dice_roll
                     won := some won
                     payout := some payout
                     status := .Settled }
        if won = true ∧ 0 < payout then
          match systemTransfer vault_lamports player_lamports payout with
          | .error e => .error e
          | .ok (vault_lamports2, player_lamports2) =>
            match checkedSub vault.balance payout with
            | none => .error .abort
            | some nb =>
              .ok { bet := bet2
                    vault := { vault with balance := nb }
                    vault_lamports := vault_lamports2
                    player_lamports := player_lamports2 }
        else
          .ok { bet := bet2
                vault := vault
                vault_lamports := vault_lamports
                player_lamports := player_lamports }

theorem multiplierOf_le (bt : BetType) : multiplierOf bt ≤ 588 := by
  cases bt <;> simp [multiplierOf]

theorem winPayout_eq (amount multiplier e : Nat)
    (ha : amount < U64_MOD) (hm : multiplier ≤ 588) (he : e ≤ 10000) :
    winPayout amount multiplier e =
      .ok ((amount * multiplier / 100 -
            amount * multiplier / 100 * e / 10000) % U64_MOD) := by
  have h1 : amount * multiplier < U128_MOD := by
    calc amount * multiplier ≤ 2 ^ 64 * 588 :=
          Nat.mul_le_mul (le_of_lt (by simpa [U64_MOD] using ha)) hm
    _ < U128_MOD := by norm_num [U128_MOD]
  have h2 : amount * multiplier / 100 * e < U128_MOD := by
    calc amount * multiplier / 100 * e ≤ amount * multiplier * e :=
          Nat.mul_le_mul_right e (Nat.div_le_self _ _)
    _ ≤ (2 ^ 64 * 588) * 10000 :=
          Nat.mul_le_mul (Nat.mul_le_mul (le_of_lt (by simpa [U64_MOD] using ha)) hm) he
    _ < U128_MOD := by norm_num [U128_MOD]
  have h3 : amount * multiplier / 100 * e / 10000 ≤ amount * multiplier / 100 := by
    calc amount * multiplier / 100 * e / 10000
        ≤ amount * multiplier / 100 * 10000 / 10000 :=
          Nat.div_le_div_right (Nat.mul_le_mul_left _ he)
    _ = amount * multiplier / 100 := Nat.mul_div_cancel _ (by norm_num)
  simp [winPayout, checkedMul128, checkedDiv, checkedSub, h1, h2, h3]

theorem systemTransfer_ok (a b c : Nat) (pr : Nat × Nat)
    (h : systemTransfer a b c = .ok pr) :
    c ≤ a ∧ b + c < U64_MOD ∧ pr = (a - c, b + c) := by
  unfold systemTransfer at h
  split at h
  · rename_i hc
    exact ⟨hc.1, hc.2, (Except.ok.inj h).symm⟩
  · exact absurd h (by simp)

theorem checkedSub_some (a b nb : Nat) (h : checkedSub a b = some nb) :
    b ≤ a ∧ nb = a - b := by
  unfold checkedSub at h
  split at h
  · rename_i hc
    exact ⟨hc, (Option.some.inj h).symm⟩
  · exact absurd h (by simp)

theorem consume_ok_spec (gc : GameConfig) (v : Vault) (b : Bet)
    (vl pl rv : Nat) (res : ConsumeResult)
    (hok : consume_randomness gc v b vl pl rv = .ok res) :
    b.status = .RandomnessRequested ∧ b.won = none ∧
    res.bet.player = b.player ∧ res.bet.bet_type = b.bet_type ∧
    res.bet.amount = b.amount ∧ res.bet.bet_index = b.bet_index ∧
    res.bet.status = .Settled ∧
    res.bet.vrf_request_key = b.vrf_request_key ∧
    res.bet.timestamp = b.timestamp ∧
    res.bet.dice_result = some (diceRoll rv) ∧
    res.bet.won = some (winRule b.bet_type (diceRoll rv)) ∧
    ∃ p, res.bet.payout = some p ∧
      (winRule b.bet_type (diceRoll rv) = true →
        winPayout b.amount (multiplierOf b.bet_type) gc.house_edge_bps = .ok p) ∧
      (winRule b.bet_type (diceRoll rv) = false → p = 0) ∧
      (winRule b.bet_type (diceRoll rv) = true ∧ 0 < p →
        p ≤ vl ∧ pl + p < U64_MOD ∧ p ≤ v.balance ∧
        res.vault = { v with balance := v.balance - p } ∧
        res.vault_lamports = vl - p ∧ res.player_lamports = pl + p) ∧
      (winRule b.bet_type (diceRoll rv) = false ∨ p = 0 →
        res.vault = v ∧ res.vault_lamports = vl ∧ res.player_lamports = pl) := by
  unfold consume_randomness at hok
  split at hok
  · exact absurd hok (by simp)
  · rename_i hst
    split at hok
    · exact absurd hok (by simp)
    · rename_i hwon
      simp only [] at hok
      split at hok
      · exact absurd hok (by simp)
      · rename_i payout heq
        split at hok
        · exact absurd hok (by simp)
        · rename_i hins
          split at hok
          · rename_i hwp
            split at hok
            · exact absurd hok (by simp)
            · rename_i vl2 pl2 htr
              split at hok
              · exact absurd hok (by simp)
              · rename_i nb hsub
                obtain ⟨rfl⟩ := Except.ok.inj hok
                obtain ⟨hle, hof, hpr⟩ := systemTransfer_ok _ _ _ _ htr
                rw [Prod.mk.injEq] at hpr
                obtain ⟨rfl, rfl⟩ := hpr
                obtain ⟨hble, rfl⟩ := checkedSub_some _ _ _ hsub
                refine ⟨by simpa using hst,
                  Option.not_isSome_iff_eq_none.mp (by simpa using hwon),
                  rfl, rfl, rfl, rfl, rfl, rfl, rfl, rfl, rfl,
                  payout, rfl, ?_, ?_, ?_, ?_⟩
                · intro hw
                  rw [if_pos hw] at heq
                  exact heq
                · intro hl
                  rw [if_neg (by simp [hl])] at heq
                  exact (Except.ok.inj heq).symm
                · intro _
                  exact ⟨hle, hof, hble, rfl, rfl, rfl⟩
                · intro h
                  rcases h with hl | hz
                  · exact absurd hwp.1 (by simp [hl])
                  · exact absurd hwp.2 (by simp [hz])
          · rename_i hwp
            obtain ⟨rfl⟩ := Except.ok.inj hok
            refine ⟨by simpa using hst,
              Option.not_isSome_iff_eq_none.mp (by simpa using hwon),
              rfl, rfl, rfl, rfl, rfl, rfl, rfl, rfl, rfl,
              payout, rfl, ?_, ?_, ?_, ?_⟩
            · intro hw
              rw [if_pos hw] at heq
              exact heq
            · intro hl
              rw [if_neg (by simp [hl])] at heq
              exact (Except.ok.inj heq).symm
            · intro h
              exact absurd h hwp
            · intro _
              exact ⟨rfl, rfl, rfl⟩

theorem checkedAdd64_some (a b nb : Nat) (h : checkedAdd64 a b = some nb) :
    a + b < U64_MOD ∧ nb = a + b := by
  unfold checkedAdd64 at h
  split at h
  · rename_i hc
    exact ⟨hc, (Option.some.inj h).symm⟩
  · exact absurd h (by simp)

theorem place_bet_ok_spec (gc : GameConfig) (v : Vault) (vl pl player : Nat)
    (bt : BetType) (amount : Nat) (now : Int) (res : PlaceBetResult)
    (hok : place_bet gc v vl pl player bt amount now = .ok res) :
    gc.paused = false ∧ gc.min_bet ≤ amount ∧ amount ≤ gc.max_bet ∧
    exposureCheck vl gc.max_exposure_bps amount = .ok () ∧
    res.vault.balance = v.balance + amount ∧
    res.vault.total_bets = v.total_bets + 1 ∧
    res.vault.total_volume = v.total_volume + amount ∧
    res.bet = { player := player, bet_type := bt, amount := amount,
                bet_index := v.total_bets, status := .Pending,
                vrf_request_key := none, dice_result := none, won := none,
                payout := none, timestamp := now } ∧
    amount ≤ pl ∧ res.vault_lamports = vl + amount ∧
    res.player_lamports = pl - amount := by
  unfold place_bet at hok
  split at hok
  · exact absurd hok (by simp)
  · rename_i hpaused
    split at hok
    · exact absurd hok (by simp)
    · rename_i hmin
      split at hok
      · exact absurd hok (by simp)
      · rename_i hmax
        split at hok
        · exact absurd hok (by simp)
        · rename_i u hexp
          split at hok
          · exact absurd hok (by simp)
          · rename_i pl2 vl2 htr
            simp only [] at hok
            split at hok
            · exact absurd hok (by simp)
            · rename_i b hb
              split at hok
              · exact absurd hok (by simp)
              · rename_i tb htb
                split at hok
                · exact absurd hok (by simp)
                · rename_i tv htv
                  obtain ⟨rfl⟩ := Except.ok.inj hok
                  obtain ⟨hle, hof, hpr⟩ := systemTransfer_ok _ _ _ _ htr
                  rw [Prod.mk.injEq] at hpr
                  obtain ⟨rfl, rfl⟩ := hpr
                  obtain ⟨-, rfl⟩ := checkedAdd64_some _ _ _ hb
                  obtain ⟨-, rfl⟩ := checkedAdd64_some _ _ _ htb
                  obtain ⟨-, rfl⟩ := checkedAdd64_some _ _ _ htv
                  cases u
                  refine ⟨by simpa using hpaused, by omega, by omega, hexp, rfl, rfl, rfl, rfl,
                    hle, rfl, rfl⟩

theorem request_ok_spec (gc : GameConfig) (b : Bet) (k : Nat) (b2 : Bet)
    (hok : request_randomness gc b k = .ok b2) :
    b.status = .Pending ∧ gc.paused = false ∧
    b2 = { b with status := .RandomnessRequested, vrf_request_key := some k } := by
  unfold request_randomness at hok
  split at hok
  · exact absurd hok (by simp)
  · rename_i hst
    split at hok
    · exact absurd hok (by simp)
    · rename_i hpaused
      exact ⟨by simpa using hst, by simpa using hpaused, (Except.ok.inj hok).symm⟩

theorem exposureCheck_skip (bps amount : Nat) :
    exposureCheck 0 bps amount = .ok () := by
  simp [exposureCheck]

theorem exposureCheck_rejects (vl bps amount : Nat)
    (hvl : vl < U64_MOD) (hbps : bps < 2 ^ 16)
    (h0 : 0 < vl) (h : vl * bps / 10000 < amount) :
    exposureCheck vl bps amount = .error (.casino .BetExceedsExposure) := by
  have hmul : vl * bps < U128_MOD := by
    calc vl * bps ≤ 2 ^ 64 * 2 ^ 16 := Nat.mul_le_mul (le_of_lt hvl) (le_of_lt hbps)
    _ < U128_MOD := by norm_num [U128_MOD]
  have htr : vl * bps / 10000 % U64_MOD ≤ vl * bps / 10000 := Nat.mod_le _ _
  simp only [exposureCheck, checkedMul128, checkedDiv, if_pos hmul, if_pos h0]
  norm_num
  omega

theorem exposureCheck_passes (vl bps amount : Nat)
    (hvl : vl < U64_MOD) (hbps : bps < 2 ^ 16)
    (h : amount ≤ vl * bps / 10000 % U64_MOD) :
    exposureCheck vl bps amount = .ok () := by
  have hmul : vl * bps < U128_MOD := by
    calc vl * bps ≤ 2 ^ 64 * 2 ^ 16 := Nat.mul_le_mul (le_of_lt hvl) (le_of_lt hbps)
    _ < U128_MOD := by norm_num [U128_MOD]
  simp only [exposureCheck, checkedMul128, checkedDiv, if_pos hmul]
  split
  · norm_num
    omega
  · rfl

theorem consume_not_ready (gc : GameConfig) (v : Vault) (b : Bet)
    (vl pl rv : Nat) (h : ¬ b.status = BetStatus.RandomnessRequested) :
    consume_randomness gc v b vl pl rv = .error (.casino .BetNotReady) := by
  unfold consume_randomness
  rw [if_pos h]

theorem request_not_ready (gc : GameConfig) (b : Bet) (k : Nat)
    (h : ¬ b.status = BetStatus.Pending) :
    request_randomness gc b k = .error (.casino .BetNotReady) := by
  unfold request_randomness
  rw [if_pos h]

theorem place_bet_exposure_error_source (gc : GameConfig) (v : Vault)
    (vl pl player : Nat) (bt : BetType) (amount : Nat) (now : Int)
    (h : place_bet gc v vl pl player bt amount now =
      .error (.casino .BetExceedsExposure)) :
    exposureCheck vl gc.max_exposure_bps amount =
      .error (.casino .BetExceedsExposure) := by
  unfold place_bet at h
  split at h
  · simp at h
  split at h
  · simp at h
  split at h
  · simp at h
  split at h
  · rename_i e hexp
    rw [hexp]
    rw [Except.error.inj h]
  · rename_i u hexp
    split at h
    · rename_i e2 htr
      unfold systemTransfer at htr
      split at htr
      · simp at htr
      · rw [show e2 = ProgError.cpi from (Except.error.inj htr).symm] at h
        simp at h
    · rename_i pl2 vl2 htr
      simp only [] at h
      split at h
      · simp at h
      split at h
      · simp at h
      split at h
      · simp at h
      · simp at h

def C1cexCfg : GameConfig :=
  { admin := 1, house_edge_bps := 0, min_bet := 1,
    max_bet := 18446744073709551615, max_exposure_bps := 10000,
    paused := false, vault_bump := 255, vrf_account := none }

def C1cexVault : Vault :=
  { balance := 18446744073709551615, total_bets := 1, total_volume := 10000000000000000000 }

def C1cexBet : Bet :=
  { player := 7, bet_type := .Under, amount := 10000000000000000000,
    bet_index := 0, status := .RandomnessRequested, vrf_request_key := some 9,
    dice_result := none, won := none, payout := none, timestamp := 0 }

/-- Projection: the payout recorded on the settled bet of a
`consume_randomness` result (`none` when the call failed). -/
def recordedPayout (x : Except ProgError ConsumeResult) : Option Nat :=
  match x with
  | .ok r => r.bet.payout
  | .error _ => none

/-- Projection: the `won` flag recorded on the settled bet of a
`consume_randomness` result (`none` when the call failed). -/
def recordedWon (x : Except ProgError ConsumeResult) : Option Bool :=
  match x with
  | .ok r => r.bet.won
  | .error _ => none

/-- C1 counterexample: a winning Under settlement of a bet of
10^19 lamports with zero house edge records payout
5053255926290448384 = (floor(10^19·235/100)) mod 2^64, not the exact
value 23500000000000000000 the claim demands. -/
theorem C1_counterexample :
    recordedWon (consume_randomness C1cexCfg C1cexVault C1cexBet
      18446744073709551615 0 0) = some true ∧
    recordedPayout (consume_randomness C1cexCfg C1cexVault C1cexBet
      18446744073709551615 0 0) = some 5053255926290448384 ∧
    C1cexBet.amount * 235 / 100 -
      (C1cexBet.amount * 235 / 100) * C1cexCfg.house_edge_bps / 10000 =
      23500000000000000000 ∧
    ¬ (5053255926290448384 : Nat) = 23500000000000000000 := by
  decide

/-- C1 (amended): for every winning settlement the recorded payout is
(floor(a·m/100) − floor(floor(a·m/100)·e/10000)) mod 2^64. -/
theorem C1_payout_formula (gc : GameConfig) (v : Vault) (b : Bet)
    (vl pl rv : Nat) (res : ConsumeResult)
    (ha : b.amount < U64_MOD) (he : gc.house_edge_bps ≤ 1000)
    (hok : consume_randomness gc v b vl pl rv = .ok res)
    (hwon : res.bet.won = some true) :
    res.bet.payout =
      some ((b.amount * multiplierOf b.bet_type / 100 -
        b.amount * multiplierOf b.bet_type / 100 * gc.house_edge_bps / 10000) %
          U64_MOD) := by
  obtain ⟨-, -, -, -, -, -, -, -, -, -, hw, p, hp, hwin, -, -, -⟩ :=
    consume_ok_spec _ _ _ _ _ _ _ hok
  rw [hw] at hwon
  have hwt : winRule b.bet_type (diceRoll rv) = true := Option.some.inj hwon
  have h1 := hwin hwt
  rw [winPayout_eq _ _ _ ha (multiplierOf_le _) (by omega)] at h1
  rw [hp, Except.ok.inj h1]

def exCfg : GameConfig :=
  { admin := 1, house_edge_bps := 200, min_bet := 1, max_bet := 1000000,
    max_exposure_bps := 200, paused := false, vault_bump := 255, vrf_account := none }

def exVault : Vault := { balance := 100000, total_bets := 3, total_volume := 50000 }

def exBetExactly : Bet :=
  { player := 7, bet_type := .Exactly, amount := 1000, bet_index := 2,
    status := .RandomnessRequested, vrf_request_key := some 9,
    dice_result := none, won := none, payout := none, timestamp := 0 }

def exResExactly : ConsumeResult :=
  { bet := { player := 7, bet_type := .Exactly, amount := 1000, bet_index := 2,
             status := .Settled, vrf_request_key := some 9,
             dice_result := some 7, won := some true, payout := some 5763,
             timestamp := 0 },
    vault := { balance := 94237, total_bets := 3, total_volume := 50000 },
    vault_lamports := 94237, player_lamports := 5763 }

/-- C1 witness: the spec Exactly example (amount 1000, house edge
200 bps, dice roll 7) instantiates the amended payout formula, and
the value of the formula there is 5763. -/
theorem C1_payout_formula_witness :
    exResExactly.bet.payout =
      some ((exBetExactly.amount * multiplierOf exBetExactly.bet_type / 100 -
        exBetExactly.amount * multiplierOf exBetExactly.bet_type / 100 * exCfg.house_edge_bps / 10000) %
          U64_MOD) ∧
    (exBetExactly.amount * multiplierOf exBetExactly.bet_type / 100 -
        exBetExactly.amount * multiplierOf exBetExactly.bet_type / 100 * exCfg.house_edge_bps / 10000) %
          U64_MOD = 5763 :=
  ⟨C1_payout_formula exCfg exVault exBetExactly 100000 0 5 exResExactly (by decide)
    (by decide) (by rfl) (by rfl), by decide⟩

/-- C2: the dice roll of every settled bet is (random_value mod 11) + 2,
lies in [2,12], `won` is set exactly by the Under/Exactly/Over rule,
and a losing settlement records won=false, payout=0 and leaves the
vault account (and its lamports) unchanged. -/
theorem C2_dice_roll_and_outcome (gc : GameConfig) (v : Vault) (b : Bet)
    (vl pl rv : Nat) (res : ConsumeResult)
    (hok : consume_randomness gc v b vl pl rv = .ok res) :
    res.bet.dice_result = some (diceRoll rv) ∧
    diceRoll rv = rv % 11 + 2 ∧
    2 ≤ diceRoll rv ∧ diceRoll rv ≤ 12 ∧
    res.bet.won = some (winRule b.bet_type (diceRoll rv)) ∧
    (res.bet.won = some true ↔
      (b.bet_type = .Under ∧ diceRoll rv < 7) ∨
      (b.bet_type = .Exactly ∧ diceRoll rv = 7) ∨
      (b.bet_type = .Over ∧ 7 < diceRoll rv)) ∧
    (winRule b.bet_type (diceRoll rv) = false →
      res.bet.won = some false ∧ res.bet.payout = some 0 ∧
      res.vault = v ∧ res.vault_lamports = vl ∧ res.player_lamports = pl) := by
  obtain ⟨-, -, -, -, -, -, -, -, -, hd, hw, p, hp, -, hlose, -, hunch⟩ :=
    consume_ok_spec _ _ _ _ _ _ _ hok
  have hroll : diceRoll rv = rv % 11 + 2 := by
    have h11 : rv % 11 < 11 := Nat.mod_lt _ (by norm_num)
    unfold diceRoll
    omega
  have h11 : rv % 11 < 11 := Nat.mod_lt _ (by norm_num)
  refine ⟨hd, hroll, by omega, by omega, hw, ?_, ?_⟩
  · rw [hw]
    cases b.bet_type <;> simp [winRule]
  · intro hl
    refine ⟨by rw [hw, hl], by rw [hp, hlose hl], ?_⟩
    exact ⟨(hunch (Or.inl hl)).1, (hunch (Or.inl hl)).2.1, (hunch (Or.inl hl)).2.2⟩

def C2wBet : Bet :=
  { player := 7, bet_type := .Over, amount := 1000, bet_index := 2,
    status := .RandomnessRequested, vrf_request_key := some 9,
    dice_result := none, won := none, payout := none, timestamp := 0 }

def C2wRes : ConsumeResult :=
  { bet := { player := 7, bet_type := .Over, amount := 1000, bet_index := 2,
             status := .Settled, vrf_request_key := some 9,
             dice_result := some 3, won := some false, payout := some 0,
             timestamp := 0 },
    vault := { balance := 100000, total_bets := 3, total_volume := 50000 },
    vault_lamports := 100000, player_lamports := 0 }

/-- C2 witness: an Over bet settled with random_value 1 (dice roll 3)
loses: won=false, payout=0, vault unchanged. -/
theorem C2_dice_roll_and_outcome_witness :
    C2wRes.bet.dice_result = some (diceRoll 1) ∧
    diceRoll 1 = 1 % 11 + 2 ∧
    2 ≤ diceRoll 1 ∧ diceRoll 1 ≤ 12 ∧
    C2wRes.bet.won = some (winRule C2wBet.bet_type (diceRoll 1)) ∧
    (C2wRes.bet.won = some true ↔
      (C2wBet.bet_type = .Under ∧ diceRoll 1 < 7) ∨
      (C2wBet.bet_type = .Exactly ∧ diceRoll 1 = 7) ∨
      (C2wBet.bet_type = .Over ∧ 7 < diceRoll 1)) ∧
    (winRule C2wBet.bet_type (diceRoll 1) = false →
      C2wRes.bet.won = some false ∧ C2wRes.bet.payout = some 0 ∧
      C2wRes.vault = exVault ∧ C2wRes.vault_lamports = 100000 ∧
      C2wRes.player_lamports = 0) :=
  C2_dice_roll_and_outcome exCfg exVault C2wBet 100000 0 1 C2wRes (by rfl)

/-- C3: a successful `consume_randomness` leaves the bet Settled with
dice_result/won/payout set, and both a second `consume_randomness`
and a `request_randomness` on the settled bet fail with BetNotReady
(an error result leaves every account unchanged). -/
theorem C3_settle_once (gc : GameConfig) (v : Vault) (b : Bet)
    (vl pl rv : Nat) (res : ConsumeResult)
    (hok : consume_randomness gc v b vl pl rv = .ok res) :
    res.bet.status = .Settled ∧
    res.bet.dice_result.isSome = true ∧ res.bet.won.isSome = true ∧
    res.bet.payout.isSome = true ∧
    (∀ gc2 v2 vl2 pl2 rv2, consume_randomness gc2 v2 res.bet vl2 pl2 rv2 =
      .error (.casino .BetNotReady)) ∧
    (∀ gc2 k, request_randomness gc2 res.bet k = .error (.casino .BetNotReady)) := by
  obtain ⟨-, -, -, -, -, -, hst, -, -, hd, hw, p, hp, -, -, -, -⟩ :=
    consume_ok_spec _ _ _ _ _ _ _ hok
  refine ⟨hst, by rw [hd]; rfl, by rw [hw]; rfl, by rw [hp]; rfl, ?_, ?_⟩
  · intro gc2 v2 vl2 pl2 rv2
    exact consume_not_ready _ _ _ _ _ _ (by rw [hst]; simp)
  · intro gc2 k
    exact request_not_ready _ _ _ (by rw [hst]; simp)

/-- C3 witness: the settled Exactly example bet can be settled only
once; replays of both instructions fail with BetNotReady. -/
theorem C3_settle_once_witness :
    exResExactly.bet.status = .Settled ∧
    exResExactly.bet.dice_result.isSome = true ∧ exResExactly.bet.won.isSome = true ∧
    exResExactly.bet.payout.isSome = true ∧
    (∀ gc2 v2 vl2 pl2 rv2, consume_randomness gc2 v2 exResExactly.bet vl2 pl2 rv2 =
      .error (.casino .BetNotReady)) ∧
    (∀ gc2 k, request_randomness gc2 exResExactly.bet k = .error (.casino .BetNotReady)) :=
  C3_settle_once exCfg exVault exBetExactly 100000 0 5 exResExactly (by rfl)

/-- C4: a successful `place_bet` bumps total_bets by 1, adds the
amount to balance and total_volume, and creates a Pending bet
indexed by the pre-increment total_bets with all result fields unset. -/
theorem C4_place_bet_effects (gc : GameConfig) (v : Vault) (vl pl player : Nat)
    (bt : BetType) (amount : Nat) (now : Int) (res : PlaceBetResult)
    (hok : place_bet gc v vl pl player bt amount now = .ok res) :
    res.vault.total_bets = v.total_bets + 1 ∧
    res.vault.total_volume = v.total_volume + amount ∧
    res.vault.balance = v.balance + amount ∧
    res.bet.player = player ∧ res.bet.bet_type = bt ∧
    res.bet.amount = amount ∧ res.bet.bet_index = v.total_bets ∧
    res.bet.status = .Pending ∧ res.bet.vrf_request_key = none ∧
    res.bet.dice_result = none ∧ res.bet.won = none ∧
    res.bet.payout = none ∧ res.bet.timestamp = now := by
  obtain ⟨-, -, -, -, hb, htb, htv, hbet, -, -, -⟩ :=
    place_bet_ok_spec _ _ _ _ _ _ _ _ _ hok
  rw [hbet]
  exact ⟨htb, htv, hb, rfl, rfl, rfl, rfl, rfl, rfl, rfl, rfl, rfl, rfl⟩

def C4wRes : PlaceBetResult :=
  { vault := { balance := 102000, total_bets := 4, total_volume := 52000 },
    bet := { player := 7, bet_type := .Under, amount := 2000, bet_index := 3,
             status := .Pending, vrf_request_key := none, dice_result := none,
             won := none, payout := none, timestamp := 0 },
    vault_lamports := 102000, player_lamports := 998000 }

/-- C4 witness: a concrete 2000-lamport Under bet against a vault with
3 prior bets yields total_bets 4, volume and balance +2000, and a
Pending bet with index 3. -/
theorem C4_place_bet_effects_witness :
    C4wRes.vault.total_bets = exVault.total_bets + 1 ∧
    C4wRes.vault.total_volume = exVault.total_volume + 2000 ∧
    C4wRes.vault.balance = exVault.balance + 2000 ∧
    C4wRes.bet.player = 7 ∧ C4wRes.bet.bet_type = .Under ∧
    C4wRes.bet.amount = 2000 ∧ C4wRes.bet.bet_index = exVault.total_bets ∧
    C4wRes.bet.status = .Pending ∧ C4wRes.bet.vrf_request_key = none ∧
    C4wRes.bet.dice_result = none ∧ C4wRes.bet.won = none ∧
    C4wRes.bet.payout = none ∧ C4wRes.bet.timestamp = 0 :=
  C4_place_bet_effects exCfg exVault 100000 1000000 7 .Under 2000 0 C4wRes (by rfl)

/-- C5: the exposure limit of `place_bet` — with a nonzero vault
lamport balance `pool`, any amount above floor(pool·bps/10000) is
rejected with BetExceedsExposure (the u128 product cannot overflow for
u64×u16 inputs); with pool = 0 the check is skipped and the error can
never arise; amounts at or below the computed limit pass the check. -/
theorem C5_exposure_limit (gc : GameConfig) (v : Vault) (vl pl player : Nat)
    (bt : BetType) (amount : Nat) (now : Int)
    (hvl : vl < U64_MOD) (hbps : gc.max_exposure_bps < 2 ^ 16)
    (hp : gc.paused = false) (hmin : gc.min_bet ≤ amount)
    (hmax : amount ≤ gc.max_bet) :
    (0 < vl → vl * gc.max_exposure_bps / 10000 < amount →
      place_bet gc v vl pl player bt amount now =
        .error (.casino .BetExceedsExposure)) ∧
    (vl = 0 →
      place_bet gc v vl pl player bt amount now ≠
        .error (.casino .BetExceedsExposure)) ∧
    (0 < vl → amount ≤ vl * gc.max_exposure_bps / 10000 % U64_MOD →
      place_bet gc v vl pl player bt amount now ≠
        .error (.casino .BetExceedsExposure)) := by
  refine ⟨?_, ?_, ?_⟩
  · intro h0 hgt
    unfold place_bet
    rw [if_neg (by simp [hp]), if_neg (by omega), if_neg (by omega),
      exposureCheck_rejects vl gc.max_exposure_bps amount hvl hbps h0 hgt]
  · intro h0 hcontra
    rw [h0] at hcontra
    have := place_bet_exposure_error_source _ _ _ _ _ _ _ _ hcontra
    rw [exposureCheck_skip] at this
    exact absurd this (by simp)
  · intro h0 hle hcontra
    have := place_bet_exposure_error_source _ _ _ _ _ _ _ _ hcontra
    rw [exposureCheck_passes vl gc.max_exposure_bps amount hvl hbps hle] at this
    exact absurd this (by simp)

/-- C5 witness: with pool 100000 and max_exposure_bps 200 the computed
limit is 2000: a 2001-lamport bet is rejected with BetExceedsExposure
while a 2000-lamport bet is not. -/
theorem C5_exposure_limit_witness :
    place_bet exCfg exVault 100000 1000000 7 .Under 2001 0 =
      .error (.casino .BetExceedsExposure) ∧
    place_bet exCfg exVault 100000 1000000 7 .Under 2000 0 ≠
      .error (.casino .BetExceedsExposure) ∧
    100000 * exCfg.max_exposure_bps / 10000 = 2000 :=
  ⟨(C5_exposure_limit exCfg exVault 100000 1000000 7 .Under 2001 0 (by decide)
      (by decide) (by decide) (by decide) (by decide)).1 (by decide) (by decide),
   (C5_exposure_limit exCfg exVault 100000 1000000 7 .Under 2000 0 (by decide)
      (by decide) (by decide) (by decide) (by decide)).2.2 (by decide) (by decide),
   by decide⟩

/-- C6: `place_bet` rejects — returning an error, which leaves every
account unchanged — with GamePaused when paused, BetTooSmall when
amount < min_bet, BetTooLarge when amount > max_bet, and
BetExceedsExposure when the amount exceeds the computed limit; each
check precedes any state mutation. -/
theorem C6_place_bet_rejections (gc : GameConfig) (v : Vault)
    (vl pl player : Nat) (bt : BetType) (amount : Nat) (now : Int)
    (hvl : vl < U64_MOD) (hbps : gc.max_exposure_bps < 2 ^ 16) :
    (gc.paused = true →
      place_bet gc v vl pl player bt amount now = .error (.casino .GamePaused)) ∧
    (gc.paused = false → amount < gc.min_bet →
      place_bet gc v vl pl player bt amount now = .error (.casino .BetTooSmall)) ∧
    (gc.paused = false → gc.min_bet ≤ amount → gc.max_bet < amount →
      place_bet gc v vl pl player bt amount now = .error (.casino .BetTooLarge)) ∧
    (gc.paused = false → gc.min_bet ≤ amount → amount ≤ gc.max_bet →
      0 < vl → vl * gc.max_exposure_bps / 10000 < amount →
      place_bet gc v vl pl player bt amount now =
        .error (.casino .BetExceedsExposure)) := by
  refine ⟨?_, ?_, ?_, ?_⟩
  · intro hp
    unfold place_bet
    rw [if_pos (by simp [hp])]
  · intro hp hlt
    unfold place_bet
    rw [if_neg (by simp [hp]), if_pos hlt]
  · intro hp hmin hgt
    unfold place_bet
    rw [if_neg (by simp [hp]), if_neg (by omega), if_pos hgt]
  · intro hp hmin hmax h0 hgt
    unfold place_bet
    rw [if_neg (by simp [hp]), if_neg (by omega), if_neg (by omega),
      exposureCheck_rejects vl gc.max_exposure_bps amount hvl hbps h0 hgt]

/-- C6 witness: concrete rejections of a paused game, an undersized, an
oversized and an over-exposed bet. -/
theorem C6_place_bet_rejections_witness :
    place_bet { exCfg with paused := true } exVault 100000 1000000 7 .Under 2000 0 =
      .error (.casino .GamePaused) ∧
    place_bet { exCfg with min_bet := 100 } exVault 100000 1000000 7 .Under 50 0 =
      .error (.casino .BetTooSmall) ∧
    place_bet exCfg exVault 100000 1000000 7 .Under 1000001 0 =
      .error (.casino .BetTooLarge) ∧
    place_bet exCfg exVault 100000 1000000 7 .Under 2001 0 =
      .error (.casino .BetExceedsExposure) :=
  ⟨(C6_place_bet_rejections { exCfg with paused := true } exVault 100000 1000000 7 .Under
      2000 0 (by decide) (by decide)).1 (by decide),
   (C6_place_bet_rejections { exCfg with min_bet := 100 } exVault 100000 1000000 7 .Under
      50 0 (by decide) (by decide)).2.1 (by decide) (by decide),
   (C6_place_bet_rejections exCfg exVault 100000 1000000 7 .Under
      1000001 0 (by decide) (by decide)).2.2.1 (by decide) (by decide) (by decide),
   (C6_place_bet_rejections exCfg exVault 100000 1000000 7 .Under
      2001 0 (by decide) (by decide)).2.2.2 (by decide) (by decide) (by decide) (by decide)
      (by decide)⟩

/-- C7: `init_game` rejects a house edge above 1000 bps with
InvalidHouseEdge, a zero min_bet or max_bet < min_bet with
InvalidBetAmount, and a max_exposure_bps of 0 or above 10000 with
InvalidExposure (checks in that order); on valid parameters it
succeeds with a GameConfig echoing the inputs (admin = caller,
paused = false, vrf_account unset) and a zeroed Vault. -/
theorem C7_init_game (admin bump e minb maxb expo : Nat) :
    (1000 < e →
      init_game admin bump e minb maxb expo = .error (.casino .InvalidHouseEdge)) ∧
    (e ≤ 1000 → minb = 0 ∨ maxb < minb →
      init_game admin bump e minb maxb expo = .error (.casino .InvalidBetAmount)) ∧
    (e ≤ 1000 → 0 < minb → minb ≤ maxb → expo = 0 ∨ 10000 < expo →
      init_game admin bump e minb maxb expo = .error (.casino .InvalidExposure)) ∧
    (e ≤ 1000 → 0 < minb → minb ≤ maxb → 0 < expo → expo ≤ 10000 →
      init_game admin bump e minb maxb expo =
        .ok ({ admin := admin, house_edge_bps := e, min_bet := minb,
               max_bet := maxb, max_exposure_bps := expo, paused := false,
               vault_bump := bump, vrf_account := none },
             { balance := 0, total_bets := 0, total_volume := 0 })) := by
  refine ⟨?_, ?_, ?_, ?_⟩
  · intro h
    unfold init_game
    rw [if_pos (by omega)]
  · intro he h
    unfold init_game
    rcases h with h | h
    · rw [if_neg (by omega), if_pos (by omega)]
    · rw [if_neg (by omega)]
      by_cases hz : minb = 0
      · rw [if_pos (by omega)]
      · rw [if_neg (by omega), if_pos (by omega)]
  · intro he hmin hmax h
    unfold init_game
    rw [if_neg (by omega), if_neg (by omega), if_neg (by omega), if_pos (by omega)]
  · intro he hmin hmax h1 h2
    unfold init_game
    rw [if_neg (by omega), if_neg (by omega), if_neg (by omega), if_neg (by omega)]

/-- C7 witness: the four rejections and one valid initialization at
concrete parameters. -/
theorem C7_init_game_witness :
    init_game 1 255 1001 1 100 200 = .error (.casino .InvalidHouseEdge) ∧
    init_game 1 255 200 0 100 200 = .error (.casino .InvalidBetAmount) ∧
    init_game 1 255 200 101 100 200 = .error (.casino .InvalidBetAmount) ∧
    init_game 1 255 200 1 100 10001 = .error (.casino .InvalidExposure) ∧
    init_game 1 255 200 1 1000000 200 =
      .ok ({ admin := 1, house_edge_bps := 200, min_bet := 1,
             max_bet := 1000000, max_exposure_bps := 200, paused := false,
             vault_bump := 255, vrf_account := none },
           { balance := 0, total_bets := 0, total_volume := 0 }) :=
  ⟨(C7_init_game 1 255 1001 1 100 200).1 (by decide),
   (C7_init_game 1 255 200 0 100 200).2.1 (by decide) (by decide),
   (C7_init_game 1 255 200 101 100 200).2.1 (by decide) (by decide),
   (C7_init_game 1 255 200 1 100 10001).2.2.1 (by decide) (by decide) (by decide)
     (by decide),
   (C7_init_game 1 255 200 1 1000000 200).2.2.2 (by decide) (by decide) (by decide)
     (by decide) (by decide)⟩

def C8cfg : GameConfig :=
  { admin := 1, house_edge_bps := 200, min_bet := 1,
    max_bet := 18446744073709551615, max_exposure_bps := 10000,
    paused := false, vault_bump := 255, vrf_account := none }

def C8vault : Vault :=
  { balance := 18446744073709551615, total_bets := 1, total_volume := 9000000000000000000 }

def C8bet : Bet :=
  { player := 7, bet_type := .Under, amount := 9000000000000000000,
    bet_index := 0, status := .RandomnessRequested, vrf_request_key := some 9,
    dice_result := none, won := none, payout := none, timestamp := 0 }

def C8res : ConsumeResult :=
  { bet := { player := 7, bet_type := .Under, amount := 9000000000000000000,
             bet_index := 0, status := .Settled, vrf_request_key := some 9,
             dice_result := some 2, won := some true,
             payout := some 2280255926290448384, timestamp := 0 },
    vault := { balance := 16166488147419103231, total_bets := 1,
               total_volume := 9000000000000000000 },
    vault_lamports := 16166488147419103231,
    player_lamports := 2280255926290448384 }

/-- C8: at the failing input (winning Under bet of 9·10^18 lamports,
house edge 200 bps) the exact payout 20727000000000000000 exceeds
u64::MAX, yet `consume_randomness` does not abort: it succeeds and
silently records (and transfers) the truncated value
20727000000000000000 mod 2^64 = 2280255926290448384. -/
theorem C8_truncation_bug :
    recordedWon (consume_randomness C8cfg C8vault C8bet
      18446744073709551615 0 0) = some true ∧
    recordedPayout (consume_randomness C8cfg C8vault C8bet
      18446744073709551615 0 0) = some 2280255926290448384 ∧
    C8bet.amount * 235 / 100 -
      (C8bet.amount * 235 / 100) * C8cfg.house_edge_bps / 10000 =
      20727000000000000000 ∧
    ¬ (2280255926290448384 : Nat) = 20727000000000000000 ∧
    ¬ consume_randomness C8cfg C8vault C8bet 18446744073709551615 0 0 =
      .error .abort := by
  refine ⟨by decide, by decide, by decide, by decide, ?_⟩
  intro h
  rw [show consume_randomness C8cfg C8vault C8bet 18446744073709551615 0 0 =
    .ok C8res from rfl] at h
  exact Except.noConfusion h

/-- C9: `request_randomness` fails with BetNotReady unless the bet is
Pending, fails with GamePaused when the game is paused, and otherwise
succeeds, recording the oracle key and moving the bet to
RandomnessRequested while changing nothing else. -/
theorem C9_request_randomness (gc : GameConfig) (b : Bet) (k : Nat) :
    (¬ b.status = .Pending →
      request_randomness gc b k = .error (.casino .BetNotReady)) ∧
    (b.status = .Pending → gc.paused = true →
      request_randomness gc b k = .error (.casino .GamePaused)) ∧
    (b.status = .Pending → gc.paused = false →
      request_randomness gc b k =
        .ok { b with status := .RandomnessRequested, vrf_request_key := some k }) := by
  refine ⟨?_, ?_, ?_⟩
  · intro h
    exact request_not_ready _ _ _ h
  · intro hs hp
    unfold request_randomness
    rw [if_neg (by simp [hs]), if_pos (by simp [hp])]
  · intro hs hp
    unfold request_randomness
    rw [if_neg (by simp [hs]), if_neg (by simp [hp])]

def C9bet : Bet :=
  { player := 7, bet_type := .Under, amount := 2000, bet_index := 3,
    status := .Pending, vrf_request_key := none, dice_result := none,
    won := none, payout := none, timestamp := 0 }

/-- C9 witness: at concrete inputs — a Settled bet is rejected with
BetNotReady, a paused game with GamePaused, and a Pending bet moves to
RandomnessRequested with the oracle key recorded. -/
theorem C9_request_randomness_witness :
    request_randomness exCfg exResExactly.bet 9 = .error (.casino .BetNotReady) ∧
    request_randomness { exCfg with paused := true } C9bet 9 =
      .error (.casino .GamePaused) ∧
    request_randomness exCfg C9bet 9 =
      .ok { C9bet with status := .RandomnessRequested, vrf_request_key := some 9 } :=
  ⟨(C9_request_randomness exCfg exResExactly.bet 9).1 (by decide),
   (C9_request_randomness { exCfg with paused := true } C9bet 9).2.1 (by decide)
     (by decide),
   (C9_request_randomness exCfg C9bet 9).2.2 (by decide) (by decide)⟩

/-- `winPayout` fails only by aborting on checked arithmetic. -/
theorem winPayout_error (a m e : Nat) (er : ProgError)
    (h : winPayout a m e = .error er) : er = ProgError.abort := by
  unfold winPayout at h
  split at h
  · exact (Except.error.inj h).symm
  split at h
  · exact (Except.error.inj h).symm
  split at h
  · exact (Except.error.inj h).symm
  split at h
  · exact (Except.error.inj h).symm
  split at h
  · exact (Except.error.inj h).symm
  · exact absurd h (by simp)

/-- The bet accounts reachable through the program own instructions:
created by `place_bet` and then mutated only by `request_randomness`
and `consume_randomness`. -/
inductive ReachableBet : Bet → Prop where
  | placed (gc : GameConfig) (v : Vault) (vl pl player : Nat) (bt : BetType)
      (amount : Nat) (now : Int) (res : PlaceBetResult)
      (h : place_bet gc v vl pl player bt amount now = .ok res) :
      ReachableBet res.bet
  | requested (gc : GameConfig) (b : Bet) (k : Nat) (b2 : Bet)
      (hb : ReachableBet b) (h : request_randomness gc b k = .ok b2) :
      ReachableBet b2
  | settled (gc : GameConfig) (v : Vault) (b : Bet) (vl pl rv : Nat)
      (res : ConsumeResult) (hb : ReachableBet b)
      (h : consume_randomness gc v b vl pl rv = .ok res) :
      ReachableBet res.bet

/-- State-machine invariant: on every reachable bet, `won` is set only
at status Settled. -/
theorem reachable_won_settled (b : Bet) (hb : ReachableBet b) :
    b.won.isSome = true → b.status = .Settled := by
  induction hb with
  | placed gc v vl pl player bt amount now res h =>
    obtain ⟨-, -, -, -, -, -, -, hbet, -, -, -⟩ :=
      place_bet_ok_spec _ _ _ _ _ _ _ _ _ h
    rw [hbet]
    simp
  | requested gc b k b2 hb h ih =>
    obtain ⟨hp, -, hb2⟩ := request_ok_spec _ _ _ _ h
    rw [hb2]
    intro hw
    simp at hw
    have := ih hw
    rw [hp] at this
    exact absurd this (by simp)
  | settled gc v b vl pl rv res hb h ih =>
    obtain ⟨-, -, -, -, -, -, hst, -, -, -, -, -⟩ :=
      consume_ok_spec _ _ _ _ _ _ _ h
    intro _
    exact hst

/-- C10: on every reachable bet `consume_randomness` never returns
BetAlreadySettled — a RandomnessRequested bet always has `won` unset,
so the second guard never fires, and a replayed settlement (status
Settled) fails with BetNotReady at the first guard. -/
theorem C10_already_settled_unreachable (gc : GameConfig) (v : Vault) (b : Bet)
    (vl pl rv : Nat) (hb : ReachableBet b) :
    consume_randomness gc v b vl pl rv ≠ .error (.casino .BetAlreadySettled) ∧
    (b.status = .RandomnessRequested → b.won = none) ∧
    (b.status = .Settled →
      consume_randomness gc v b vl pl rv = .error (.casino .BetNotReady)) := by
  have hinv := reachable_won_settled b hb
  refine ⟨?_, ?_, ?_⟩
  · by_cases hst : b.status = BetStatus.RandomnessRequested
    · have hwon : b.won = none := by
        cases hw : b.won with
        | none => rfl
        | some x =>
          have := hinv (by rw [hw]; rfl)
          rw [this] at hst
          exact absurd hst (by simp)
      unfold consume_randomness
      rw [if_neg (by simp [hst])]
      rw [hwon]
      simp only [Option.isSome_none, Bool.false_eq_true, if_false]
      intro h
      split at h
      · rename_i e2 heq
        have he2 : e2 = ProgError.abort := by
          split at heq
          · exact winPayout_error _ _ _ _ heq
          · exact absurd heq (by simp)
        rw [he2] at h
        simp at h
      · rename_i payout heq
        split at h
        · simp at h
        split at h
        · split at h
          · rename_i e2 htr
            unfold systemTransfer at htr
            split at htr
            · simp at htr
            · rw [show e2 = ProgError.cpi from (Except.error.inj htr).symm] at h
              simp at h
          · rename_i vl2 pl2 htr
            split at h
            · simp at h
            · simp at h
        · simp at h
    · rw [consume_not_ready gc v b vl pl rv hst]
      simp
  · intro hst
    cases hw : b.won with
    | none => rfl
    | some x =>
      have := hinv (by rw [hw]; rfl)
      rw [this] at hst
      exact absurd hst (by simp)
  · intro hst
    exact consume_not_ready gc v b vl pl rv (by simp [hst])

def C10pbRes : PlaceBetResult :=
  { vault := { balance := 2000, total_bets := 1, total_volume := 2000 },
    bet := { player := 7, bet_type := .Under, amount := 2000, bet_index := 0,
             status := .Pending, vrf_request_key := none, dice_result := none,
             won := none, payout := none, timestamp := 0 },
    vault_lamports := 2000, player_lamports := 998000 }

def C10bet2 : Bet :=
  { player := 7, bet_type := .Under, amount := 2000, bet_index := 0,
    status := .RandomnessRequested, vrf_request_key := some 9,
    dice_result := none, won := none, payout := none, timestamp := 0 }

def C10vault0 : Vault := { balance := 0, total_bets := 0, total_volume := 0 }

/-- C10 witness: a concretely reachable RandomnessRequested bet (placed
with the vault empty, then randomness requested) has `won` unset and
can never draw BetAlreadySettled from `consume_randomness`. -/
theorem C10_already_settled_unreachable_witness :
    consume_randomness exCfg exVault C10bet2 100000 0 5 ≠
      .error (.casino .BetAlreadySettled) ∧
    C10bet2.won = none :=
  have h1 : ReachableBet C10pbRes.bet :=
    ReachableBet.placed exCfg C10vault0 0 1000000 7 .Under 2000 0 C10pbRes (by rfl)
  have h2 : ReachableBet C10bet2 :=
    ReachableBet.requested exCfg C10pbRes.bet 9 C10bet2 h1 (by rfl)
  have h := C10_already_settled_unreachable exCfg exVault C10bet2 100000 0 5 h2
  ⟨h.1, h.2.1 (by rfl)⟩

end SolCasino
